import Mathlib

/-!
Shallow embedding of the Research Orchestration Engine of ClaudeBuddy
(server/app/agents/{state,supervisor,researcher}.py and
server/app/routers/research.py), with theorems settling the spec claims.

External capabilities (the Anthropic text-generation client and the Tavily
search client) are modelled as explicit parameters of type `Except String α`:
`Except.ok` is a normal return, `Except.error e` models the call raising an
exception with message `e`.  Python `float` scores are advisory only (never
branched on by any embedded code path) and are modelled as `Rat`.
-/

namespace ClaudeBuddy

/-- Python `sub in s` on strings: substring containment. -/
def strIn (sub s : String) : Bool :=
  decide (sub.toList <:+: s.toList)

/-- Python str.strip(): drop leading and trailing whitespace.  (Defined on
the character list; Lean core's String.trim computes the same string but by
byte positions, which the kernel cannot reduce.) -/
def pyStrip (s : String) : String :=
  ⟨((s.toList.dropWhile Char.isWhitespace).reverse.dropWhile Char.isWhitespace).reverse⟩

/-- Python str.upper(), character-wise. -/
def pyUpper (s : String) : String :=
  ⟨s.toList.map Char.toUpper⟩

/-- Structure ResearchFinding from agents/state.py: a single result extracted from a
Tavily search response. -/
structure ResearchFinding where
  title : String
  url : String
  content : String
  score : Rat
  raw_content : Option String
deriving DecidableEq, Repr

/-- Routing decision returned by `should_continue_research`
(the Python function returns the literal strings "research" / "write"). -/
inductive Route where
  | research
  | write
deriving DecidableEq, Repr

/-- Embeds should_continue_research from agents/supervisor.py (lines 55-129).
`llm_response` models the `llm.invoke(prompt)` call inside the `try` block:
`Except.ok r` is a response with content `r`, `Except.error e` a raised
exception (caught by the `except Exception` branch). -/
def should_continue_research (search_count max_searches : Nat)
    (research_findings : List ResearchFinding)
    (llm_response : Except String String) : Route :=
  -- Safety limit check first
  if search_count ≥ max_searches then .write
  -- If no findings yet, definitely need to research
  else if research_findings.isEmpty then .research
  -- If only 1 search done, usually need more
  else if search_count < 2 then .research
  else
    match llm_response with
    | .ok response =>
      let decision := pyUpper (pyStrip response)
      if strIn "WRITE" decision then .write
      else if strIn "RESEARCH" decision then .research
      else if search_count ≥ 3 then .write
      else .research
    | .error _ =>
      -- On error, use heuristics
      if search_count ≥ 3 ∧ research_findings.length ≥ 5 then .write
      else .research

/-- Embeds generate_search_query from agents/researcher.py (lines 26-71).
`llm_response` models `llm.invoke(prompt)` (line 64), which is NOT wrapped in
any try/except: a raised exception propagates, hence the `Except` result.
The "fallback if generation fails" check (line 68) only inspects the returned
text (`not new_query or len(new_query) < 5`). -/
def generate_search_query (original_query : String)
    (existing_findings : List ResearchFinding) (search_count : Nat)
    (llm_response : Except String String) : Except String String :=
  if search_count = 0 ∨ existing_findings.isEmpty then
    -- First search - use original query
    .ok original_query
  else
    match llm_response with
    | .error e => .error e
    | .ok response =>
      let new_query := pyStrip response
      -- Fallback to original if generation fails
      if new_query = "" ∨ new_query.length < 5 then
        .ok (original_query ++ " details examples")
      else
        .ok new_query

/-- The dedup-and-append step of `researcher_node` (researcher.py lines
114-118): `existing_urls = {f.get("url") ...}`, keep the new findings whose
url is not already present, append them after the existing ones. -/
def mergeFindings (existing new_findings : List ResearchFinding) :
    List ResearchFinding :=
  let existing_urls := existing.map (fun f => f.url)
  let unique_new := new_findings.filter (fun f => !(existing_urls.contains f.url))
  existing ++ unique_new

/-- Count of survivors of the dedup filter, used in the progress message. -/
def countNewFindings (existing new_findings : List ResearchFinding) : Nat :=
  (mergeFindings existing new_findings).length - existing.length

/-- The partial state-update dict returned by `researcher_node`.
`research_findings = none` models the error branch, whose dict has no
`research_findings` key (the state value is left unchanged by the graph). -/
structure ResearcherUpdate where
  research_findings : Option (List ResearchFinding)
  search_count : Nat
  message : String
deriving DecidableEq, Repr

/-- Embeds researcher_node from agents/researcher.py (lines 74-135).
`query_llm` models the `llm.invoke` inside `generate_search_query` (called on
line 87, BEFORE the `try` on line 94, so its exceptions escape the node);
`search_result` models `tavily.search` inside the `try`: `Except.ok` carries
the findings extracted from `results["results"]`, `Except.error e` a raised
exception with message `e`. -/
def researcher_node (research_query : String)
    (research_findings : List ResearchFinding) (search_count : Nat)
    (query_llm : Except String String)
    (search_result : Except String (List ResearchFinding)) :
    Except String ResearcherUpdate :=
  match generate_search_query research_query research_findings search_count query_llm with
  | .error e => .error e
  | .ok search_query =>
    match search_result with
    | .ok new_findings =>
      let all_findings := mergeFindings research_findings new_findings
      .ok { research_findings := some all_findings,
            search_count := search_count + 1,
            message := "Searched for: " ++ search_query ++ "\nFound "
              ++ toString (countNewFindings research_findings new_findings)
              ++ " new results." }
    | .error e =>
      -- On error, still increment count to prevent infinite loops
      .ok { research_findings := none,
            search_count := search_count + 1,
            message := "Search error: " ++ e }

/-- An entry of `task["events"]` (routers/research.py, `add_event`,
lines 176-184).  `data` is an opaque payload (a string or a small dict in the
Python code), modelled as its serialized form. -/
structure Event where
  type : String
  data : String
  timestamp : String
deriving DecidableEq, Repr

/-- A task dict stored in `_research_tasks` (routers/research.py lines
64-80).  `final_summary` is `none` while the key is absent from the dict
(it is only set by `run_research_task` when the writer produced output);
option fields are `none` where the Python value is `None`. -/
structure Task where
  task_id : String
  status : String
  query : String
  target_project : String
  max_searches : Nat
  search_depth : String
  search_count : Nat
  current_phase : String
  findings : List ResearchFinding
  findings_count : Nat
  started_at : String
  completed_at : Option String
  saved_path : Option String
  error : Option String
  final_summary : Option String
  events : List Event
deriving DecidableEq, Repr

/-- Embeds add_event (routers/research.py lines 176-184): append an event to the
task's event list.  `now` models `datetime.utcnow().isoformat()`. -/
def add_event (t : Task) (event_type data now : String) : Task :=
  { t with events := t.events ++ [{ type := event_type, data := data, timestamp := now }] }

/-- The unconditional completion epilogue of `run_research_task`
(routers/research.py lines 155-162), executed whenever the supervisor graph
run returns without raising: it sets `status` to "completed" regardless of
the task's current status (nothing in `run_research_task` ever reads a
cancellation flag). -/
def complete_research_task (t : Task) (now : String) : Task :=
  add_event { t with status := "completed", current_phase := "completed",
                     completed_at := some now }
    "complete" "research complete" now

/-- An HTTPException raised by a router endpoint. -/
structure HTTPError where
  status_code : Nat
  detail : String
deriving DecidableEq, Repr

/-- The response body of `get_research_result` (the fields the claims are
about; the remaining fields of the Python dict are copied verbatim from the
task the same way). -/
structure ResearchResult where
  task_id : String
  status : String
  summary : String
  findings : List ResearchFinding
  saved_path : Option String
  error : Option String
deriving DecidableEq, Repr

/-- Embeds get_research_result (routers/research.py lines 210-231): 404 when the
id is unknown, 400 "Task not yet completed" when
`task["status"] not in ("completed", "failed")`, otherwise the result dict
with `summary = task.get("final_summary", "")`. -/
def get_research_result (task : Option Task) : Except HTTPError ResearchResult :=
  match task with
  | none => .error { status_code := 404, detail := "Task not found" }
  | some t =>
    if t.status ≠ "completed" ∧ t.status ≠ "failed" then
      .error { status_code := 400, detail := "Task not yet completed" }
    else
      .ok { task_id := t.task_id, status := t.status,
            summary := t.final_summary.getD "",
            findings := t.findings, saved_path := t.saved_path,
            error := t.error }

/-- Embeds one iteration of the while-True loop of event_generator inside
`stream_research_progress` (routers/research.py lines 242-263), observing the
task's current snapshot: it yields `events[last_index:]` in order, then
breaks (closes the stream) exactly when `status in ("completed", "failed")`.
The generator is created with `last_index = 0` (line 243), so the first
iteration replays the whole event log from the beginning.  Returns
(yielded events, stream closed?, new last_index). -/
def event_generator_step (task : Option Task) (last_index : Nat) :
    List Event × Bool × Nat :=
  match task with
  | none =>
    ([{ type := "error", data := "Task not found", timestamp := "" }], true, last_index)
  | some t =>
    let new_events := t.events.drop last_index
    (new_events,
     decide (t.status = "completed" ∨ t.status = "failed"),
     last_index + new_events.length)

/-- Embeds cancel_research (routers/research.py lines 275-290): 404 when unknown,
400 "Task already finished" when `task["status"] in ("completed", "failed")`,
otherwise set `status` to "cancelled", stamp `completed_at`, append the
cancelled event and acknowledge. -/
def cancel_research (task : Option Task) (now : String) :
    Except HTTPError (Task × String) :=
  match task with
  | none => .error { status_code := 404, detail := "Task not found" }
  | some t =>
    if t.status = "completed" ∨ t.status = "failed" then
      .error { status_code := 400, detail := "Task already finished" }
    else
      .ok (add_event { t with status := "cancelled", completed_at := some now }
             "cancelled" "Task cancelled by user" now,
           "Task cancelled")

/-- A concrete finding with literal fields, for witnesses and
counterexamples. -/
def mkFinding (title url : String) : ResearchFinding :=
  { title := title, url := url, content := "c", score := 0, raw_content := none }

/-- Five findings with pairwise distinct urls. -/
def fiveFindings : List ResearchFinding :=
  [mkFinding "A" "https://a.example", mkFinding "B" "https://b.example",
   mkFinding "C" "https://c.example", mkFinding "D" "https://d.example",
   mkFinding "E" "https://e.example"]

/-- C1: whenever `search_count >= max_searches`, `should_continue_research`
returns "write", for every findings list and every behaviour of the
text-generation capability (including one that always answers "RESEARCH"):
the hard cap is checked first and the result does not depend on the
`llm_response` parameter, so no generation call is consulted. -/
theorem hard_cap_forces_write (search_count max_searches : Nat)
    (research_findings : List ResearchFinding)
    (llm_response : Except String String)
    (h : search_count ≥ max_searches) :
    should_continue_research search_count max_searches research_findings llm_response
      = Route.write := by
  unfold should_continue_research
  rw [if_pos h]

/-- Witness for `hard_cap_forces_write` at the cap with empty findings and a
generation capability that always answers "RESEARCH". -/
theorem hard_cap_forces_write_witness :
    5 ≥ 5 ∧ should_continue_research 5 5 [] (Except.ok "RESEARCH") = Route.write :=
  ⟨by decide, hard_cap_forces_write 5 5 [] (Except.ok "RESEARCH") (by decide)⟩

/-- C5 counterexample: with empty findings but `search_count = max_searches`,
`should_continue_research` returns "write", not "research" — the hard cap
(rule 1) fires before the cold-start rule (rule 2), so the claim "Continue
whenever findings is empty, regardless of roundCount" is false. -/
theorem empty_findings_at_cap_write :
    should_continue_research 5 5 [] (Except.error "generation unavailable")
      ≠ Route.research := by
  decide

/-- C5 amended: with empty findings and `search_count < max_searches`,
`should_continue_research` returns "research", for every behaviour of the
generation capability. -/
theorem empty_findings_below_cap_continue (search_count max_searches : Nat)
    (llm_response : Except String String)
    (h : search_count < max_searches) :
    should_continue_research search_count max_searches [] llm_response
      = Route.research := by
  unfold should_continue_research
  rw [if_neg (Nat.not_le.mpr h),
    if_pos (show ([] : List ResearchFinding).isEmpty = true from rfl)]

/-- Witness for `empty_findings_below_cap_continue` below the cap. -/
theorem empty_findings_below_cap_continue_witness :
    3 < 5 ∧ should_continue_research 3 5 [] (Except.ok "WRITE") = Route.research :=
  ⟨by decide, empty_findings_below_cap_continue 3 5 (Except.ok "WRITE") (by decide)⟩

/-- C7: in the LLM-judgment layer (below the cap, findings non-empty, at
least 2 searches done): a response whose trimmed upper-casing contains
"WRITE" gives "write"; one containing "RESEARCH" but not "WRITE" gives
"research"; one containing neither gives "write" iff `search_count >= 3`;
and a raising generation call gives "write" iff `search_count >= 3` and at
least 5 findings. -/
theorem llm_judgment_layer (search_count max_searches : Nat)
    (research_findings : List ResearchFinding)
    (hcap : search_count < max_searches)
    (hne : research_findings ≠ [])
    (h2 : 2 ≤ search_count) :
    (∀ response, strIn "WRITE" (pyUpper (pyStrip response)) = true →
        should_continue_research search_count max_searches research_findings
          (Except.ok response) = Route.write)
    ∧ (∀ response, strIn "WRITE" (pyUpper (pyStrip response)) = false →
        strIn "RESEARCH" (pyUpper (pyStrip response)) = true →
        should_continue_research search_count max_searches research_findings
          (Except.ok response) = Route.research)
    ∧ (∀ response, strIn "WRITE" (pyUpper (pyStrip response)) = false →
        strIn "RESEARCH" (pyUpper (pyStrip response)) = false →
        (should_continue_research search_count max_searches research_findings
          (Except.ok response) = Route.write ↔ 3 ≤ search_count))
    ∧ (∀ e, should_continue_research search_count max_searches research_findings
          (Except.error e) = Route.write
        ↔ 3 ≤ search_count ∧ 5 ≤ research_findings.length) := by
  have hie : research_findings.isEmpty = false := by
    cases research_findings with
    | nil => exact absurd rfl hne
    | cons a l => rfl
  have h1 : ¬ (search_count ≥ max_searches) := Nat.not_le.mpr hcap
  have h3 : ¬ (search_count < 2) := Nat.not_lt.mpr h2
  refine ⟨?_, ?_, ?_, ?_⟩
  · intro response hW
    simp only [should_continue_research, if_neg h1, hie, Bool.false_eq_true,
      if_false, if_neg h3, hW, if_true]
  · intro response hW hR
    simp only [should_continue_research, if_neg h1, hie, Bool.false_eq_true,
      if_false, if_neg h3, hW, hR, if_true]
  · intro response hW hR
    simp only [should_continue_research, if_neg h1, hie, Bool.false_eq_true,
      if_false, if_neg h3, hW, hR]
    by_cases hc : 3 ≤ search_count
    · simp [hc]
    · simp [hc]
  · intro e
    simp only [should_continue_research, if_neg h1, hie, Bool.false_eq_true,
      if_false, if_neg h3]
    by_cases hc : 3 ≤ search_count ∧ 5 ≤ research_findings.length
    · simp [hc]
    · simp [hc]

/-- Witness for `llm_judgment_layer`: at `search_count = 2` with one finding
and a "WRITE" answer, the decision is "write". -/
theorem llm_judgment_layer_witness :
    2 < 5 ∧ ([mkFinding "A" "https://a.example"] ≠ []) ∧ 2 ≤ 2
    ∧ should_continue_research 2 5 [mkFinding "A" "https://a.example"]
        (Except.ok "WRITE") = Route.write :=
  ⟨by decide, by decide, by decide,
   (llm_judgment_layer 2 5 [mkFinding "A" "https://a.example"]
      (by decide) (by decide) (by decide)).1 "WRITE" (by decide)⟩

/-- Unfolded form of the dedup-and-append step. -/
theorem mergeFindings_eq (existing new_findings : List ResearchFinding) :
    mergeFindings existing new_findings
      = existing ++ new_findings.filter
          (fun f => !((existing.map (fun g => g.url)).contains f.url)) := rfl

/-- C3 counterexample: the dedup filter only compares incoming findings
against the urls already accumulated, not against each other, so a single
batch containing the same url twice leaves a duplicate in the session. -/
theorem merge_duplicates_within_batch :
    ¬ ((mergeFindings []
          [mkFinding "dup" "https://dup.example", mkFinding "dup" "https://dup.example"]).map
        (fun f => f.url)).Nodup := by
  decide

/-- C3 amended: when each incoming batch is itself duplicate-free, the merged
list has pairwise distinct urls; merging a batch whose urls are all already
present changes nothing; the existing findings stay as an unchanged prefix
and the appended survivors are a subsequence of the batch (arrival order). -/
theorem merge_dedup_invariants (existing new_findings : List ResearchFinding)
    (hex : (existing.map (fun f => f.url)).Nodup)
    (hnew : (new_findings.map (fun f => f.url)).Nodup) :
    ((mergeFindings existing new_findings).map (fun f => f.url)).Nodup
    ∧ ((∀ f ∈ new_findings, f.url ∈ existing.map (fun g => g.url)) →
        mergeFindings existing new_findings = existing)
    ∧ existing <+: mergeFindings existing new_findings
    ∧ List.Sublist ((mergeFindings existing new_findings).drop existing.length)
        new_findings := by
  rw [mergeFindings_eq]
  refine ⟨?_, ?_, ?_, ?_⟩
  · rw [List.map_append, List.nodup_append]
    refine ⟨hex, ?_, ?_⟩
    · exact List.Nodup.sublist
        (List.Sublist.map (fun f => f.url) (List.filter_sublist new_findings)) hnew
    · intro u hu hmem
      obtain ⟨f, hf, rfl⟩ := List.mem_map.mp hmem
      obtain ⟨-, hp⟩ := List.mem_filter.mp hf
      rw [Bool.not_eq_true'] at hp
      have hc : (List.map (fun g => g.url) existing).contains f.url = true :=
        List.elem_iff.mpr hu
      rw [hp] at hc
      exact Bool.noConfusion hc
  · intro hall
    have hfil : new_findings.filter
        (fun f => !((existing.map (fun g => g.url)).contains f.url)) = [] := by
      rw [List.filter_eq_nil_iff]
      intro f hf
      have hc : (List.map (fun g => g.url) existing).contains f.url = true :=
        List.elem_iff.mpr (hall f hf)
      simp only [hc]
      decide
    rw [hfil, List.append_nil]
  · exact List.prefix_append _ _
  · rw [List.drop_left]
    exact List.filter_sublist new_findings

/-- Witness for `merge_dedup_invariants` on two concrete duplicate-free
batches with one overlapping url. -/
theorem merge_dedup_invariants_witness :
    (([mkFinding "A" "https://a.example"].map (fun f => f.url)).Nodup)
    ∧ (([mkFinding "A" "https://a.example", mkFinding "B" "https://b.example"].map
          (fun f => f.url)).Nodup)
    ∧ ((mergeFindings [mkFinding "A" "https://a.example"]
          [mkFinding "A" "https://a.example", mkFinding "B" "https://b.example"]).map
        (fun f => f.url)).Nodup :=
  ⟨by decide, by decide,
   (merge_dedup_invariants [mkFinding "A" "https://a.example"]
      [mkFinding "A" "https://a.example", mkFinding "B" "https://b.example"]
      (by decide) (by decide)).1⟩

/-- C4: when the search provider call raises (and the query-generation step
returned normally, which is required to even reach the search), the round is
absorbed: no findings key is returned (zero new findings), the node returns
normally instead of aborting the session, and `search_count` is incremented
exactly once, with the failure recorded as a message. -/
theorem search_failure_absorbed (research_query : String)
    (research_findings : List ResearchFinding) (search_count : Nat)
    (query_llm : Except String String) (q e : String)
    (hq : generate_search_query research_query research_findings search_count query_llm
        = Except.ok q) :
    researcher_node research_query research_findings search_count query_llm
        (Except.error e)
      = Except.ok { research_findings := none,
                    search_count := search_count + 1,
                    message := "Search error: " ++ e } := by
  unfold researcher_node
  rw [hq]

/-- Witness for `search_failure_absorbed` on a concrete first round whose
search raises. -/
theorem search_failure_absorbed_witness :
    generate_search_query "impact of X on Y" [] 0 (Except.error "llm down")
        = Except.ok "impact of X on Y"
    ∧ researcher_node "impact of X on Y" [] 0 (Except.error "llm down")
        (Except.error "HTTP 500")
      = Except.ok { research_findings := none, search_count := 1,
                    message := "Search error: HTTP 500" } :=
  ⟨rfl,
   search_failure_absorbed "impact of X on Y" [] 0 (Except.error "llm down")
     "impact of X on Y" "HTTP 500" rfl⟩

/-- C6 counterexample: the generation call inside `generate_search_query` is
not guarded by any try/except, so a raising text-generation capability makes
query refinement itself raise instead of falling back. -/
theorem generation_failure_raises :
    generate_search_query "impact of X on Y" [mkFinding "A" "https://a.example"] 1
        (Except.error "generation unavailable")
      = Except.error "generation unavailable" := rfl

/-- C6 amended: on round 0 (or with no findings yet) query refinement
returns the original query verbatim, for every generation behaviour; past
round 0 with non-empty findings, a generation call that returns yields
exactly the stripped generated text when it passes the non-empty/length-5
check and exactly originalQuery + " details examples" otherwise — in both
cases a non-empty query of at least 5 characters — while a raising
generation call propagates its exception (no fallback). -/
theorem refined_query_well_formed (original_query : String)
    (existing_findings : List ResearchFinding) (search_count : Nat) :
    (∀ llm_response, (search_count = 0 ∨ existing_findings = []) →
        generate_search_query original_query existing_findings search_count llm_response
          = Except.ok original_query)
    ∧ (search_count ≠ 0 → existing_findings ≠ [] →
        (∀ response, pyStrip response = "" ∨ (pyStrip response).length < 5 →
            generate_search_query original_query existing_findings search_count
                (Except.ok response)
              = Except.ok (original_query ++ " details examples")
            ∧ 5 ≤ (original_query ++ " details examples").length
            ∧ original_query ++ " details examples" ≠ "")
        ∧ (∀ response, ¬ (pyStrip response = "" ∨ (pyStrip response).length < 5) →
            generate_search_query original_query existing_findings search_count
                (Except.ok response)
              = Except.ok (pyStrip response)
            ∧ 5 ≤ (pyStrip response).length ∧ pyStrip response ≠ "")
        ∧ (∀ e, generate_search_query original_query existing_findings search_count
              (Except.error e) = Except.error e)) := by
  constructor
  · intro llm_response h
    have hcond : search_count = 0 ∨ existing_findings.isEmpty = true := by
      rcases h with h | h
      · exact Or.inl h
      · rw [h]
        exact Or.inr rfl
    unfold generate_search_query
    rw [if_pos hcond]
  · intro hsc hne
    have hie : existing_findings.isEmpty = false := by
      cases existing_findings with
      | nil => exact absurd rfl hne
      | cons a l => rfl
    have hcond : ¬ (search_count = 0 ∨ existing_findings.isEmpty = true) := by
      rintro (h | h)
      · exact hsc h
      · rw [hie] at h
        cases h
    have hred : ∀ response, generate_search_query original_query existing_findings
          search_count (Except.ok response)
        = if pyStrip response = "" ∨ (pyStrip response).length < 5
          then Except.ok (original_query ++ " details examples")
          else Except.ok (pyStrip response) := by
      intro response
      unfold generate_search_query
      rw [if_neg hcond]
    have hfallback : 5 ≤ (original_query ++ " details examples").length := by
      rw [String.length_append]
      have : (" details examples" : String).length = 17 := by decide
      omega
    refine ⟨?_, ?_, ?_⟩
    · intro response hq
      rw [hred response, if_pos hq]
      refine ⟨rfl, hfallback, ?_⟩
      intro hcontra
      rw [hcontra] at hfallback
      exact absurd hfallback (by decide)
    · intro response hq
      rw [hred response, if_neg hq]
      push_neg at hq
      exact ⟨rfl, hq.2, hq.1⟩
    · intro e
      unfold generate_search_query
      rw [if_neg hcond]

/-- Witness for `refined_query_well_formed`: a too-short generated query
falls back to exactly the padded original. -/
theorem refined_query_well_formed_witness :
    (1 ≠ 0) ∧ ([mkFinding "A" "https://a.example"] ≠ ([] : List ResearchFinding))
    ∧ (pyStrip "ai" = "" ∨ (pyStrip "ai").length < 5)
    ∧ (generate_search_query "impact of X on Y" [mkFinding "A" "https://a.example"] 1
          (Except.ok "ai")
        = Except.ok ("impact of X on Y" ++ " details examples")
       ∧ 5 ≤ ("impact of X on Y" ++ " details examples").length
       ∧ "impact of X on Y" ++ " details examples" ≠ "") :=
  ⟨by decide, by decide, by decide,
   ((refined_query_well_formed "impact of X on Y"
       [mkFinding "A" "https://a.example"] 1).2 (by decide) (by decide)).1 "ai" (by decide)⟩

/-- Shorthand for a concrete event. -/
def ev (ty d ts : String) : Event := { type := ty, data := d, timestamp := ts }

/-- A concrete task mid-research, for counterexamples and witnesses. -/
def researchingTask : Task :=
  { task_id := "task-1", status := "researching", query := "impact of X on Y",
    target_project := "/projects/demo", max_searches := 5, search_depth := "advanced",
    search_count := 1, current_phase := "running supervisor graph",
    findings := [mkFinding "A" "https://a.example"], findings_count := 1,
    started_at := "2024-01-01T00:00:00", completed_at := none,
    saved_path := none, error := none, final_summary := none,
    events := [ev "status" "Starting research..." "2024-01-01T00:00:00",
               ev "status" "Research in progress..." "2024-01-01T00:00:01"] }

/-- The same task after a successful cancel request. -/
def cancelledTask : Task :=
  { researchingTask with
      status := "cancelled",
      completed_at := some "2024-01-01T00:05:00",
      events := researchingTask.events
        ++ [ev "cancelled" "Task cancelled by user" "2024-01-01T00:05:00"] }

/-- A concrete completed task with a recorded summary. -/
def completedTask : Task :=
  { researchingTask with
      status := "completed", current_phase := "completed",
      completed_at := some "2024-01-01T00:10:00",
      final_summary := some "# Research Summary ..." }

/-- C2 (code bug): `cancel_research` marks the task "cancelled", but
`run_research_task` never reads that flag, and when the supervisor graph run
returns, its epilogue unconditionally overwrites the status with
"completed" — so in the code the Cancelled phase is not terminal: a
successfully cancelled mid-research task later transitions to Completed. -/
theorem cancelled_status_overwritten :
    (cancel_research (some researchingTask) "2024-01-01T00:05:00").map
        (fun p => (p.1.status, (complete_research_task p.1 "2024-01-01T00:10:00").status))
      = Except.ok ("cancelled", "completed") := rfl

/-- C8 counterexample: on a cancelled task — a terminal phase — the result
endpoint raises the Invalid-State error instead of succeeding: its gate only
accepts the statuses "completed" and "failed". -/
theorem get_result_fails_on_cancelled :
    cancelledTask.status = "cancelled"
    ∧ get_research_result (some cancelledTask)
        = Except.error { status_code := 400, detail := "Task not yet completed" } :=
  ⟨rfl, rfl⟩

/-- Reduction of the result endpoint on a registered task. -/
theorem get_research_result_some (t : Task) :
    get_research_result (some t)
      = if t.status ≠ "completed" ∧ t.status ≠ "failed" then
          Except.error { status_code := 400, detail := "Task not yet completed" }
        else
          Except.ok { task_id := t.task_id, status := t.status,
                      summary := t.final_summary.getD "",
                      findings := t.findings, saved_path := t.saved_path,
                      error := t.error } := rfl

/-- C8 amended: `get_research_result` fails with the Invalid-State error
exactly when the status is neither "completed" nor "failed" (so it fails on
a researching task and also on the terminal Cancelled); on a completed task
it returns the stored summary (the empty string when none was recorded). -/
theorem get_result_gate (t : Task) :
    ((get_research_result (some t)).isOk = true
        ↔ (t.status = "completed" ∨ t.status = "failed"))
    ∧ (t.status = "researching" →
        get_research_result (some t)
          = Except.error { status_code := 400, detail := "Task not yet completed" })
    ∧ (t.status = "completed" →
        get_research_result (some t)
          = Except.ok { task_id := t.task_id, status := t.status,
                        summary := t.final_summary.getD "",
                        findings := t.findings, saved_path := t.saved_path,
                        error := t.error }) := by
  rw [get_research_result_some]
  by_cases h : t.status ≠ "completed" ∧ t.status ≠ "failed"
  · rw [if_pos h]
    refine ⟨?_, fun _ => rfl, fun hc => absurd hc h.1⟩
    constructor
    · intro hok
      simp [Except.isOk, Except.toBool] at hok
    · rintro (hc | hc)
      · exact absurd hc h.1
      · exact absurd hc h.2
  · rw [if_neg h]
    refine ⟨⟨fun _ => ?_, fun _ => rfl⟩, fun hr => ?_, fun _ => rfl⟩
    · rcases Decidable.em (t.status = "completed") with hc | hc
      · exact Or.inl hc
      · right
        by_contra hf
        exact h ⟨hc, hf⟩
    · exfalso
      apply h
      constructor
      · rw [hr]
        decide
      · rw [hr]
        decide

/-- Witness for `get_result_gate` on a concrete completed task. -/
theorem get_result_gate_witness :
    completedTask.status = "completed"
    ∧ get_research_result (some completedTask)
      = Except.ok { task_id := completedTask.task_id, status := completedTask.status,
                    summary := completedTask.final_summary.getD "",
                    findings := completedTask.findings,
                    saved_path := completedTask.saved_path,
                    error := completedTask.error } :=
  ⟨rfl, (get_result_gate completedTask).2.2 rfl⟩

/-- C9 counterexample: the stream neither starts at the consumer's attach
point — a fresh generator begins at index 0 and replays the full log — nor
closes on the terminal Cancelled status: the break condition only accepts
"completed" and "failed", so a cancelled task's stream stays open forever. -/
theorem stream_open_on_cancelled :
    cancelledTask.status = "cancelled"
    ∧ (event_generator_step (some cancelledTask) 0).2.1 = false
    ∧ (event_generator_step (some cancelledTask) 0).1 = cancelledTask.events
    ∧ cancelledTask.events.length = 3 :=
  ⟨rfl, rfl, rfl, rfl⟩

/-- C9 amended: each polling iteration yields the pending suffix
`events[last_index:]` in append order, and two successive iterations over an
append-only log together yield exactly the final log's suffix from the first
index (no duplication, no loss); the stream closes exactly on the statuses
"completed" and "failed" — never on "cancelled" — and a fresh generator
starts at index 0, so it replays events from before the consumer attached. -/
theorem event_stream_semantics (t t' : Task) (i : Nat)
    (hmono : t.events <+: t'.events) (hi : i ≤ t.events.length) :
    (event_generator_step (some t) i).1 = t.events.drop i
    ∧ ((event_generator_step (some t) i).2.1 = true
        ↔ (t.status = "completed" ∨ t.status = "failed"))
    ∧ (event_generator_step (some t) i).1
        ++ (event_generator_step (some t') (event_generator_step (some t) i).2.2).1
      = t'.events.drop i := by
  obtain ⟨rest, hrest⟩ := hmono
  refine ⟨rfl, decide_eq_true_iff, ?_⟩
  show t.events.drop i ++ t'.events.drop (i + (t.events.drop i).length)
      = t'.events.drop i
  have hlen : i + (t.events.drop i).length = t.events.length := by
    rw [List.length_drop]
    omega
  rw [hlen, ← hrest, List.drop_left, List.drop_append_eq_append_drop,
    Nat.sub_eq_zero_of_le hi, List.drop_zero]

/-- Witness for `event_stream_semantics`: attaching at index 1 against the
researching snapshot and polling again after cancellation yields the final
log's suffix from index 1. -/
theorem event_stream_semantics_witness :
    researchingTask.events <+: cancelledTask.events
    ∧ 1 ≤ researchingTask.events.length
    ∧ (event_generator_step (some researchingTask) 1).1
        ++ (event_generator_step (some cancelledTask)
              (event_generator_step (some researchingTask) 1).2.2).1
      = cancelledTask.events.drop 1 :=
  ⟨by decide, by decide,
   (event_stream_semantics researchingTask cancelledTask 1 (by decide) (by decide)).2.2⟩

/-- Reduction of the cancel endpoint on a registered task. -/
theorem cancel_research_some (t : Task) (now : String) :
    cancel_research (some t) now
      = if t.status = "completed" ∨ t.status = "failed" then
          Except.error { status_code := 400, detail := "Task already finished" }
        else
          Except.ok ({ t with
                        status := "cancelled", completed_at := some now,
                        events := t.events ++ [{ type := "cancelled",
                                                 data := "Task cancelled by user",
                                                 timestamp := now }] },
                     "Task cancelled") := rfl

/-- C10 counterexample: cancelling an already-cancelled task — a terminal
phase — succeeds again instead of failing with Invalid-State: the guard only
rejects the statuses "completed" and "failed". -/
theorem cancel_succeeds_on_cancelled :
    cancelledTask.status = "cancelled"
    ∧ (cancel_research (some cancelledTask) "2024-01-01T00:06:00").isOk = true :=
  ⟨rfl, rfl⟩

/-- C10 amended: `cancel_research` fails with Invalid-State exactly when the
status is "completed" or "failed"; on every other status — including an
already-cancelled task — it succeeds, setting the status to "cancelled",
stamping `completed_at` and appending the cancelled event. -/
theorem cancel_gate (t : Task) (now : String) :
    ((cancel_research (some t) now).isOk = true
        ↔ ¬ (t.status = "completed" ∨ t.status = "failed"))
    ∧ (¬ (t.status = "completed" ∨ t.status = "failed") →
        cancel_research (some t) now
          = Except.ok ({ t with
                          status := "cancelled", completed_at := some now,
                          events := t.events ++ [{ type := "cancelled",
                                                   data := "Task cancelled by user",
                                                   timestamp := now }] },
                       "Task cancelled")) := by
  rw [cancel_research_some]
  by_cases h : t.status = "completed" ∨ t.status = "failed"
  · rw [if_pos h]
    refine ⟨⟨fun hok => ?_, fun hn => absurd h hn⟩, fun hn => absurd h hn⟩
    simp [Except.isOk, Except.toBool] at hok
  · rw [if_neg h]
    exact ⟨⟨fun _ => h, fun _ => rfl⟩, fun _ => rfl⟩

/-- Witness for `cancel_gate`: cancelling the concrete researching task
succeeds and transitions it to "cancelled". -/
theorem cancel_gate_witness :
    ¬ (researchingTask.status = "completed" ∨ researchingTask.status = "failed")
    ∧ cancel_research (some researchingTask) "2024-01-01T00:05:00"
      = Except.ok ({ researchingTask with
                      status := "cancelled",
                      completed_at := some "2024-01-01T00:05:00",
                      events := researchingTask.events ++ [{ type := "cancelled",
                                                             data := "Task cancelled by user",
                                                             timestamp := "2024-01-01T00:05:00" }] },
                   "Task cancelled") :=
  ⟨by decide, (cancel_gate researchingTask "2024-01-01T00:05:00").2 (by decide)⟩

end ClaudeBuddy
